import Mathlib

/-!
Shallow embedding of the hybrid retrieval / routing / answer-synthesis core of
the openbooklm-local repository, together with theorems settling the frozen
claims about it.

Sources embedded (faithfully, function by function):
  backend/rag/vector_storeold.py   save_vectors, load_vectors, delete_vectors,
                                   get_collection_notebooks, search_across_collection
  backend/rag/similarity.py        similarity_search
  backend/rag/question_router.py   classify_question
  backend/rag/intent_classifier.py classify_intent
  backend/rag/metadata_engineold.py handle_metadata_intent
  backend/rag/rag_pipeline.py      generate_answer (collection and single mode)
  backend/rag/appold.py            pdf_chat (the single-document entry point)

Modelling conventions: FAISS `IndexFlatL2` is modelled as the list of stored
vectors with exact L2 search (sort by squared distance); the filesystem of
`.index`/`.json` files is a `Store` map from notebook id to the persisted
pair; the sqlite `notebooks` and `document_metadata` tables are lists of rows;
the llama.cpp model calls (`ask_llm`, `llm_generate_text`, the intent
classifier raw call) and Python's `json.loads` are uninterpreted parameters
of a `RagEnv`, since their outputs are model-dependent.  Python exceptions
(`HTTPException`, `json.JSONDecodeError`) are an explicit `PyError` in an
`Except`.  `generate_answer` additionally reports whether the synthesis model
call was made (`synth_called`), mirroring the observable call count.
-/

namespace RagSpec

/-! ## Python string primitives -/

/-- Python `str.lower()` (ASCII, which covers every string the code builds). -/
def pyLower (s : String) : String := String.mk (s.toList.map Char.toLower)

/-- Substring test on character lists: Python `needle in hay`. -/
def isSubOf (needle : List Char) : List Char → Bool
  | [] => needle.isPrefixOf []
  | c :: rest => needle.isPrefixOf (c :: rest) || isSubOf needle rest

/-- Python `needle in hay` on strings. -/
def pyIn (needle hay : String) : Bool := isSubOf needle.toList hay.toList

/-- Python `str.strip()`: remove leading and trailing whitespace. -/
def pyStrip (s : String) : String :=
  String.mk
    (((s.toList.dropWhile Char.isWhitespace).reverse.dropWhile
      Char.isWhitespace).reverse)

/-- Python truthiness of an optional string (`None` and `""` are falsy). -/
def truthyS : Option String → Bool
  | none => false
  | some s => !(s == "")

/-- Python `dict.get(key, default)` on a boolean-valued mapping. -/
def dictGetB (m : List (String × Bool)) (k : String) (d : Bool) : Bool :=
  (m.lookup k).getD d

/-- Decimal digit character, for Python `str(int)`. -/
def digitChar (d : ℕ) : Char :=
  if d = 0 then '0' else if d = 1 then '1' else if d = 2 then '2'
  else if d = 3 then '3' else if d = 4 then '4' else if d = 5 then '5'
  else if d = 6 then '6' else if d = 7 then '7' else if d = 8 then '8' else '9'

/-- Decimal digits of a natural number, most significant first. -/
def natDigits (n : ℕ) : List Char :=
  if h : n < 10 then [digitChar n]
  else natDigits (n / 10) ++ [digitChar (n % 10)]
decreasing_by exact Nat.div_lt_self (by omega) (by omega)

/-- Python `str(n)` for a non-negative integer. -/
def natStr (n : ℕ) : String := String.mk (natDigits n)

/-! ## Data model -/

/-- One entry of the `vectors` list handed to `save_vectors`:
`{"text": ..., "embedding": [...], "chunk_index": int (optional)}`. -/
structure ChunkRec where
  text : String
  embedding : List ℚ
  chunk_index : Option ℕ
deriving DecidableEq

/-- One persisted metadata record (one element of the `.json` file written by
`save_vectors`). -/
structure MetaRec where
  text : String
  notebook_id : String
  collection_id : Option String
  chunk_index : ℕ
deriving DecidableEq

/-- Model of `faiss.IndexFlatL2`: the list of stored vectors. -/
structure FaissIndex where
  vecs : List (List ℚ)
deriving DecidableEq

/-- `index.ntotal`. -/
def FaissIndex.ntotal (i : FaissIndex) : ℕ := i.vecs.length

/-- The persisted vector store: notebook id to (`.index` file, `.json` file),
`none` when either file is absent. -/
def Store : Type := String → Option (FaissIndex × List MetaRec)

/-- A row of the sqlite `notebooks` table. -/
structure NotebookRow where
  notebook_id : String
  filename : Option String
  user_id : String
  collection_id : Option String
deriving DecidableEq

/-- A row of the sqlite `document_metadata` table (the columns the embedded
functions read). -/
structure MetadataRow where
  document_id : String
  collection_id : Option String
  user_id : String
  case_number : Option String
  document_type : Option String
  order_date : Option String
deriving DecidableEq

/-- The dict produced by the question router / intent classifier, as consumed
by `generate_answer` and `handle_metadata_intent`. -/
structure Intent where
  intent_type : Option String
  operation : Option String
  entities : List (String × Bool)
  filters : List (String × Option String)
deriving DecidableEq

/-- Result dict of `classify_question`. -/
structure RouterResult where
  route : String
  operation : Option String
  entities : List (String × Bool)
  fallback_to_semantic : Bool
deriving DecidableEq

/-- One result dict of `search_across_collection`. -/
structure SearchResult where
  text : String
  notebook_id : String
  collection_id : Option String
  chunk_index : ℕ
  distance : ℚ
  score : ℚ
deriving DecidableEq

/-- One result dict of `similarity_search`. -/
structure SimResult where
  text : String
  score : ℚ
  notebook_id : String
  chunk_index : ℕ
  source : String
deriving DecidableEq

/-- Python exceptions that the embedded code can raise. -/
inductive PyError where
  | http (status_code : ℕ) (detail : String)
  | jsonDecode (msg : String)
deriving DecidableEq

/-- Return value of `generate_answer`, instrumented with whether the
collection-level synthesis model call (`llm_generate_text`) was made. -/
structure GenResult where
  answer : String
  synth_called : Bool
deriving DecidableEq

/-! ## vector_storeold.py -/

/-- `save_vectors(notebook_id, vectors, collection_id=None)`: builds an
`IndexFlatL2` over the embeddings and writes the parallel metadata list.
On an empty `vectors` list the Python code raises (`embeddings.shape[1]` of a
zero-row array), modelled as `none`. -/
def save_vectors (store : Store) (notebook_id : String) (vectors : List ChunkRec)
    (collection_id : Option String) : Option Store :=
  match vectors with
  | [] => none
  | _ =>
    some (fun nid =>
      if nid = notebook_id then
        some (⟨vectors.map (fun v => v.embedding)⟩,
          vectors.enum.map (fun p =>
            ⟨p.2.text, notebook_id, collection_id, p.2.chunk_index.getD p.1⟩))
      else store nid)

/-- `load_vectors(notebook_id)`: `None` when either file is absent. -/
def load_vectors (store : Store) (notebook_id : String) :
    Option (FaissIndex × List MetaRec) :=
  store notebook_id

/-- `delete_vectors(notebook_id)`: removes both files, idempotent. -/
def delete_vectors (store : Store) (notebook_id : String) : Store :=
  fun nid => if nid = notebook_id then none else store nid

/-! ## FAISS exact search model -/

/-- Squared L2 distance between two vectors. -/
def sqDist (a b : List ℚ) : ℚ :=
  (List.zipWith (fun x y => (x - y) * (x - y)) a b).sum

/-- Insert into a list sorted by `le`. -/
def insertSorted {α : Type} (le : α → α → Bool) (x : α) : List α → List α
  | [] => [x]
  | y :: ys => if le x y then x :: y :: ys else y :: insertSorted le x ys

/-- Insertion sort by `le`. -/
def insSortBy {α : Type} (le : α → α → Bool) : List α → List α
  | [] => []
  | x :: xs => insertSorted le x (insSortBy le xs)

/-- `index.search(q, k)`: the `(distance, ordinal)` pairs of the stored
vectors ordered by ascending squared L2 distance, truncated to `k` and padded
with `-1` ordinals when the index holds fewer than `k` vectors (FAISS
semantics). -/
def faissSearch (index : FaissIndex) (q : List ℚ) (k : ℕ) : List (ℚ × ℤ) :=
  let scored := index.vecs.enum.map (fun p => (sqDist q p.2, (p.1 : ℤ)))
  let sorted := insSortBy (fun a b => decide (a.1 ≤ b.1)) scored
  sorted.take k ++ List.replicate (k - sorted.length) (0, -1)

/-! ## Collection registry and collection search (vector_storeold.py) -/

/-- `get_collection_notebooks(collection_id, user_id)`:
`SELECT notebook_id FROM notebooks WHERE collection_id = ? AND user_id = ?`. -/
def get_collection_notebooks (db : List NotebookRow) (collection_id user_id : String) :
    List String :=
  (db.filter (fun r =>
    r.collection_id == some collection_id && r.user_id == user_id)).map
      (fun r => r.notebook_id)

/-- `search_across_collection(collection_id, query_embedding, top_k, user_id)`:
one best candidate per notebook of the collection (it searches `k = 1`
regardless of `top_k`), score `1/(1+distance)`. -/
def search_across_collection (db : List NotebookRow) (store : Store)
    (collection_id : String) (query_embedding : List ℚ) (top_k : ℕ)
    (user_id : String) : List SearchResult :=
  let notebook_ids := get_collection_notebooks db collection_id user_id
  notebook_ids.filterMap (fun nb_id =>
    match store nb_id with
    | none => none
    | some (index, metadata) =>
      if index.ntotal = 0 then none
      else
        match (faissSearch index query_embedding 1).head? with
        | none => none
        | some di =>
          if di.2 = -1 ∨ (metadata.length : ℤ) ≤ di.2 then none
          else
            match metadata.get? di.2.toNat with
            | none => none
            | some m =>
              some ⟨m.text, nb_id, m.collection_id, m.chunk_index,
                    di.1, 1 / (1 + di.1)⟩)

/-! ## Service context

The llama.cpp model handle and `json.loads` are uninterpreted: their output
depends on model weights / arbitrary text, so they are fields of the context
in which the pipeline runs.  The sqlite tables and the FAISS file store are
the remaining ambient state the pipeline reads. -/

structure RagEnv where
  /-- The `notebooks` table. -/
  db : List NotebookRow
  /-- The `document_metadata` table. -/
  meta_db : List MetadataRow
  /-- The FAISS `.index`/`.json` file store. -/
  store : Store
  /-- `embed_texts([q])[0]` / `embed_query(q)`: the embedding collaborator. -/
  embed : String → List ℚ
  /-- `ask_llm(context, question)`: the strict grounded-extraction model call. -/
  ask : String → String → String
  /-- `llm_generate_text(prompt)`: the free-generation model call. -/
  gen : String → String
  /-- The raw text the classifier model returns for a prompt. -/
  classifier_output : String → String
  /-- Python `json.loads` composed with duck-typed field access, yielding an
  `Intent` or raising `json.JSONDecodeError` on malformed text. -/
  json_loads : String → Except PyError Intent

/-! ## similarity.py -/

/-- `similarity_search(question, vectors, notebook_id, collection_id, user_id,
TOP_K)`.  Case 1 formats `search_across_collection` results; case 2 searches
one notebook's FAISS index and converts distance to score as `1 - dist`;
case 3 (in-memory `vectors` carrying embeddings) needs floating-point
`sqrt` for cosine similarity and is unreachable from the pipeline
(`generate_answer` never forwards such vectors), so it is not modelled and
yields `[]` here. -/
def similarity_search (env : RagEnv) (question : String)
    (vectors : Option (List ChunkRec)) (notebook_id : Option String)
    (collection_id : Option String) (user_id : Option String)
    (top_k : ℕ) : List SimResult :=
  if truthyS collection_id && truthyS user_id then
    let results := search_across_collection env.db env.store
      (collection_id.getD "") (env.embed question) top_k (user_id.getD "")
    results.map (fun r =>
      ⟨r.text, r.score, r.notebook_id, r.chunk_index,
       "Notebook: " ++ r.notebook_id.take 8 ++ "..."⟩)
  else if truthyS notebook_id then
    let nid := notebook_id.getD ""
    match env.store nid with
    | none => []
    | some (index, metadata) =>
      let sr := faissSearch index (env.embed question) top_k
      sr.filterMap (fun di =>
        if di.2 = -1 then none
        else if di.2.toNat < metadata.length then
          (metadata.get? di.2.toNat).map (fun m =>
            (⟨m.text, 1 - di.1, nid, m.chunk_index,
              "Notebook: " ++ nid.take 8 ++ "..."⟩ : SimResult))
        else none)
  else
    match vectors with
    | _ => []

/-! ## question_router.py -/

/-- The document-keyword list shared by both router branches. -/
def doc_keywords : List String :=
  ["document", "documents", "pdf", "pdfs", "file", "files"]

/-- `classify_question(question, available_entities=None)`: the deterministic
router.  Lexical count/list patterns set `route="metadata"`; the fallback
check demotes to semantic when none of the required entities is populated in
`available_entities`. -/
def classify_question (question : String)
    (available_entities : Option (List (String × Bool))) : RouterResult :=
  let available := available_entities.getD []
  let q := pyStrip (pyLower question)
  let base : RouterResult := ⟨"semantic", none, [], false⟩
  let result :=
    if (["how many", "count", "number of"].any (fun x => pyIn x q)) then
      { base with
        route := "metadata", operation := some "count",
        entities := [("document", doc_keywords.any (fun x => pyIn x q)),
                     ("case", pyIn "case" q)] }
    else if (["list", "show", "which"].any (fun x => pyIn x q)) then
      { base with
        route := "metadata", operation := some "list",
        entities := [("case", pyIn "case" q),
                     ("document", doc_keywords.any (fun x => pyIn x q)),
                     ("order_date", pyIn "order date" q),
                     ("document_type", pyIn "type" q)] }
    else base
  if result.route = "metadata" then
    let entities_required := (result.entities.filter (fun p => p.2)).map
      (fun p => p.1)
    if (entities_required.any (fun e => dictGetB available e false)) = false then
      { result with route := "semantic", operation := none,
                    fallback_to_semantic := true }
    else result
  else result

/-! ## intent_classifier.py -/

/-- The classification prompt of `classify_intent` (the Python f-string with
its literal JSON schema; `\x7b`/`\x7d` denote the literal braces). -/
def intent_prompt (question : String) : String :=
  "\nYou are an intent classifier for a document system.\n\nYour job:\n- DO NOT answer the question\n- DO NOT explain\n- ONLY classify the intent\n\nReturn VALID JSON exactly in this schema:\n\x7b\n  \"intent_type\": \"metadata | semantic | hybrid\",\n  \"operation\": \"list | count | filter | summarize | compare | explain\",\n  \"entities\": \x7b\n    \"case\": false,\n    \"order_date\": false,\n    \"document_type\": false,\n    \"act\": false\n  \x7d,\n  \"filters\": \x7b\n    \"document_type\": null,\n    \"case_stage\": null\n  \x7d\n\x7d\n\nQuestion:\n\"" ++ question ++ "\"\n"

/-- `classify_intent(question)`: one classifier model call followed by a bare
`json.loads` — there is no `try`/`except`, so a parse failure propagates. -/
def classify_intent (env : RagEnv) (question : String) : Except PyError Intent :=
  env.json_loads (env.classifier_output (intent_prompt question))

/-! ## metadata_engineold.py -/

/-- SQL `column = ?` comparison for a TEXT column against a bound parameter
(`NULL` never compares equal). -/
def sqlEq (column : String) : Option String → Bool
  | some v => column == v
  | none => false

/-- SQL `column = ?` for a nullable TEXT column. -/
def sqlEqO (column : Option String) : Option String → Bool
  | some v => match column with
    | some c => c == v
    | none => false
  | none => false

/-- Python `value or 'N/A'` on a nullable column. -/
def orNA : Option String → String
  | some s => if s = "" then "N/A" else s
  | none => "N/A"

/-- Python `value or 'Unknown'` on a nullable column. -/
def orUnknown : Option String → String
  | some s => if s = "" then "Unknown" else s
  | none => "Unknown"

/-- Rows of `document_metadata` matching
`WHERE collection_id = ? AND user_id = ?`. -/
def metaRows (meta_db : List MetadataRow) (collection_id user_id : Option String) :
    List MetadataRow :=
  meta_db.filter (fun r =>
    sqlEqO r.collection_id collection_id && sqlEq r.user_id user_id)

/-- The sentinel returned for unsupported metadata intents. -/
def unsupported_sentinel : String :=
  "Metadata intent recognized but not yet supported."

/-- `handle_metadata_intent(intent, collection_id, user_id, notebook_id=None)`:
`list`+`case` listing, `count` cardinality, otherwise the unsupported
sentinel.  `notebook_id` is accepted but never read, as in the source. -/
def handle_metadata_intent (meta_db : List MetadataRow) (intent : Intent)
    (collection_id user_id notebook_id : Option String) : String :=
  if intent.operation = some "list" ∧ dictGetB intent.entities "case" false = true then
    let rows := metaRows meta_db collection_id user_id
    if rows = [] then "No cases found in this collection."
    else
      String.intercalate "\n" (rows.map (fun r =>
        "Case: " ++ orNA r.case_number ++ ", Type: " ++
          orUnknown r.document_type ++ ", Order Date: " ++ orNA r.order_date))
  else if intent.operation = some "count" then
    "Total documents: " ++ natStr (metaRows meta_db collection_id user_id).length
  else unsupported_sentinel

/-! ## rag_pipeline.py -/

/-- The canonical collection-level refusal string. -/
def refusal_docs : String := "Not mentioned in the documents."

/-- The canonical single-document refusal string. -/
def refusal_doc : String := "Not mentioned in the document."

/-- `MAX_CHUNKS_PER_NOTEBOOK`. -/
def MAX_CHUNKS_PER_NOTEBOOK : ℕ := 3

/-- `MAX_TEXT_CHARS`. -/
def MAX_TEXT_CHARS : ℕ := 6000

/-- The collection-level synthesis prompt f-string. -/
def synthesis_prompt (question : String) (partial_answers : List String) : String :=
  "\nYou are given answers extracted independently from multiple documents.\n\nYour task is to provide a collection-level understanding.\n\nINSTRUCTIONS:\n- Look for common patterns, agreements, or themes\n- If most documents point to the same conclusion, state it clearly\n- If documents differ or information is insufficient, say so explicitly\n- Do NOT invent facts not present in the extracted answers\n- Be concise and neutral\n\nEXTRACTED ANSWERS:\n----------------\n" ++
  String.intercalate "\n" partial_answers ++
  "\n----------------\n\nORIGINAL QUESTION:\n" ++ question ++
  "\n\nFinal synthesized answer (collection-level):\n"

/-- The body of the per-notebook loop in collection mode: load the index
(skip when absent or empty), take the top `MAX_CHUNKS_PER_NOTEBOOK`
candidates, build the truncated context, run the strict extraction call, and
keep the answer only when it is non-empty and does not contain
`"not mentioned"` case-insensitively.  `none` means the notebook contributes
nothing to the synthesis input. -/
def process_notebook (env : RagEnv) (question : String) (q_emb : List ℚ)
    (nb_id : String) : Option String :=
  match env.store nb_id with
  | none => none
  | some (index, metadata) =>
    if index.ntotal = 0 then none
    else
      let sr := faissSearch index q_emb MAX_CHUNKS_PER_NOTEBOOK
      let chunks := sr.filterMap (fun di =>
        if di.2 = -1 ∨ (metadata.length : ℤ) ≤ di.2 then none
        else (metadata.get? di.2.toNat).map (fun m => m.text))
      if chunks = [] then none
      else
        let context0 := String.intercalate "\n\n" chunks
        let context := if context0.length > MAX_TEXT_CHARS
          then context0.take MAX_TEXT_CHARS else context0
        let answer := env.ask context question
        if answer != "" && !(pyIn "not mentioned" (pyLower answer)) then
          some ("Notebook " ++ nb_id ++ ":\n" ++ answer)
        else none

/-- Collection mode of `generate_answer`: resolve the collection, embed the
question once, fan out per notebook, and either short-circuit to the
canonical refusal or make the one synthesis call. -/
def semantic_collection (env : RagEnv) (question : String) (cid uid : String) :
    GenResult :=
  let notebook_ids := get_collection_notebooks env.db cid uid
  if notebook_ids = [] then ⟨refusal_docs, false⟩
  else
    let q_emb := env.embed question
    let partial_answers := notebook_ids.filterMap (process_notebook env question q_emb)
    if partial_answers = [] then ⟨refusal_docs, false⟩
    else
      let final_answer := env.gen (synthesis_prompt question partial_answers)
      ⟨final_answer.trim, true⟩

/-- Single-notebook mode of `generate_answer`: top-5 similarity search, one
strict extraction call, its output returned verbatim. -/
def semantic_single (env : RagEnv) (question : String) (nid : String) : String :=
  let results := similarity_search env question none (some nid) none none 5
  if results = [] then refusal_doc
  else
    let context0 := String.intercalate "\n\n" (results.map (fun r => r.text))
    let context := if context0.length > MAX_TEXT_CHARS
      then context0.take MAX_TEXT_CHARS else context0
    env.ask context question

/-- The semantic part of `generate_answer` (everything after the metadata
early exit), dispatching on the truthiness of `collection_id`/`user_id` and
`notebook_id` exactly as the Python conditionals do. -/
def semantic_rag (env : RagEnv) (question : String)
    (relevant_chunks : Option (List MetaRec)) (notebook_id : Option String)
    (collection_id : Option String) (user_id : Option String) : GenResult :=
  if truthyS collection_id && truthyS user_id then
    semantic_collection env question (collection_id.getD "") (user_id.getD "")
  else if truthyS notebook_id then
    ⟨semantic_single env question (notebook_id.getD ""), false⟩
  else ⟨"No documents provided for answering.", false⟩

/-- `generate_answer(question, relevant_chunks=None, notebook_id=None,
collection_id=None, user_id=None)`: deterministic router (invoked without an
`available_entities` map), classifier fallback, metadata early exit unless
the engine's answer is empty or contains `"not yet supported"`, then the
semantic path.  `relevant_chunks` is accepted but never read, as in the
source. -/
def generate_answer (env : RagEnv) (question : String)
    (relevant_chunks : Option (List MetaRec)) (notebook_id : Option String)
    (collection_id : Option String) (user_id : Option String) :
    Except PyError GenResult :=
  let router_decision := classify_question question none
  let intentE : Except PyError Intent :=
    if router_decision.route = "metadata" then
      .ok ⟨some "metadata", router_decision.operation, router_decision.entities, []⟩
    else classify_intent env question
  match intentE with
  | .error e => .error e
  | .ok intent =>
    let metadata_exit : Option String :=
      if intent.intent_type = some "metadata" then
        let answer := handle_metadata_intent env.meta_db intent
          collection_id user_id notebook_id
        if answer != "" && !(pyIn "not yet supported" (pyLower answer)) then
          some answer
        else none
      else none
    match metadata_exit with
    | some answer => .ok ⟨answer, false⟩
    | none =>
      .ok (semantic_rag env question relevant_chunks notebook_id
        collection_id user_id)

/-! ## appold.py -/

/-- `POST /pdf-chat`: validate the payload, enforce notebook ownership
(`HTTPException(403, "Forbidden")` when the notebook does not belong to the
caller), load the notebook's vectors and run `generate_answer`.  The chat
history inserts are write-only side effects and are not modelled. -/
def pdf_chat (env : RagEnv) (notebook_id question : Option String)
    (user_id : String) : Except PyError String :=
  if truthyS notebook_id = false ∨ truthyS question = false then
    .error (.http 400 "Missing data")
  else
    let nid := notebook_id.getD ""
    if (env.db.any (fun r => r.notebook_id == nid && r.user_id == user_id)) = false
    then .error (.http 403 "Forbidden")
    else
      let vectors := match env.store nid with
        | some p => p.2
        | none => []
      (generate_answer env (question.getD "") (some vectors) (some nid)
        none none).map (fun g => g.answer)

/-! ## Concrete test fixtures

Small closed instances used to evaluate the embedded functions on concrete
inputs (witnesses and counterexamples). -/

/-- One notebook `n1` owned by `u1` in collection `c1`. -/
def wDb : List NotebookRow := [⟨"n1", some "doc.pdf", "u1", some "c1"⟩]

/-- A store holding one one-vector index for `n1`. -/
def wStore : Store := fun nid =>
  if nid = "n1" then some (⟨[[0, 0]]⟩, [⟨"alpha", "n1", some "c1", 0⟩])
  else none

/-- Two `document_metadata` rows for collection `c1` of user `u1`. -/
def wMeta : List MetadataRow :=
  [⟨"n1", some "c1", "u1", some "K-12", some "Order", some "2021-01-01"⟩,
   ⟨"n2", some "c1", "u1", none, none, none⟩]

/-- A classifier result with a semantic intent. -/
def wIntentSem : Intent := ⟨some "semantic", none, [], []⟩

/-- A classifier result asking for a metadata count. -/
def wIntentCount : Intent := ⟨some "metadata", some "count", [], []⟩

/-- A classifier result asking for a case listing. -/
def wIntentList : Intent := ⟨some "metadata", some "list", [("case", true)], []⟩

/-- A classifier result with a metadata operation the engine does not
support. -/
def wIntentSumm : Intent := ⟨some "metadata", some "summarize", [], []⟩

/-- Environment with an empty notebooks table (empty collections). -/
def wEnvEmpty : RagEnv :=
  ⟨[], [], fun _ => none, fun _ => [], fun _ _ => "", fun _ => "",
   fun _ => "", fun _ => .ok wIntentSem⟩

/-- Environment whose extractor always answers with grounded content plus a
case-varied refusal phrase. -/
def wEnvMixed : RagEnv :=
  ⟨wDb, [], wStore, fun _ => [1, 0],
   fun _ _ =>
     "The penalty is 5% per month. Whether interest also accrues is Not MENTIONED in the document.",
   fun _ => "SYNTH", fun _ => "", fun _ => .ok wIntentSem⟩

/-- Environment whose classifier model emits text that is not valid JSON, so
`json.loads` raises. -/
def wEnvBadJson : RagEnv :=
  ⟨[], [], fun _ => none, fun _ => [], fun _ _ => "", fun _ => "",
   fun _ => "not json at all",
   fun _ => .error (.jsonDecode "Expecting value: line 1 column 1 (char 0)")⟩

/-- Environment whose classifier yields a metadata `count` intent. -/
def wEnvCount : RagEnv :=
  ⟨wDb, wMeta, wStore, fun _ => [1, 0], fun _ _ => "x", fun _ => "g",
   fun _ => "", fun _ => .ok wIntentCount⟩

/-- Environment whose classifier yields a metadata `list`/`case` intent. -/
def wEnvList : RagEnv :=
  ⟨wDb, wMeta, wStore, fun _ => [1, 0], fun _ _ => "x", fun _ => "g",
   fun _ => "", fun _ => .ok wIntentList⟩

/-- Environment whose classifier yields an unsupported metadata intent. -/
def wEnvUnsupported : RagEnv :=
  ⟨wDb, wMeta, wStore, fun _ => [1, 0], fun _ _ => "x", fun _ => "g",
   fun _ => "", fun _ => .ok wIntentSumm⟩

/-- Environment for the score-transform comparison: its only notebook `n1`
holds the single vector `[0, 0]` and every question embeds to `[1, 0]`, so
the one raw distance is `1`. -/
def wEnvScore : RagEnv :=
  ⟨wDb, [], wStore, fun _ => [1, 0], fun _ _ => "", fun _ => "",
   fun _ => "", fun _ => .ok wIntentSem⟩

/-- An initially empty vector store. -/
def wStoreEmpty : Store := fun _ => none

/-- Two chunk records for the round-trip test. -/
def wChunks : List ChunkRec := [⟨"a", [1], none⟩, ⟨"b", [2], some 7⟩]

/-! ## Helper lemmas: substring search -/

lemma isPrefixOf_subset {l₁ l₂ : List Char} (h : l₁.isPrefixOf l₂ = true) :
    ∀ c ∈ l₁, c ∈ l₂ := by
  induction l₁ generalizing l₂ with
  | nil => intro c hc; cases hc
  | cons a as ih =>
    cases l₂ with
    | nil => simp [List.isPrefixOf] at h
    | cons b bs =>
      simp only [List.isPrefixOf, Bool.and_eq_true, beq_iff_eq] at h
      intro c hc
      rcases List.mem_cons.1 hc with hc | hc
      · exact List.mem_cons.2 (Or.inl (hc.trans h.1))
      · exact List.mem_cons.2 (Or.inr (ih h.2 c hc))

lemma isSubOf_subset {n h : List Char} (hs : isSubOf n h = true) :
    ∀ c ∈ n, c ∈ h := by
  induction h with
  | nil =>
    intro c hc
    cases n with
    | nil => cases hc
    | cons a as => simp [isSubOf, List.isPrefixOf] at hs
  | cons b bs ih =>
    simp only [isSubOf, Bool.or_eq_true] at hs
    intro c hc
    rcases hs with hs | hs
    · exact isPrefixOf_subset hs c hc
    · exact List.mem_cons.2 (Or.inr (ih hs c hc))

lemma isSubOf_eq_false_of_not_mem {n h : List Char} {c : Char}
    (hc : c ∈ n) (hh : c ∉ h) : isSubOf n h = false := by
  cases hs : isSubOf n h with
  | false => rfl
  | true => exact absurd (isSubOf_subset hs c hc) hh

/-! ## Helper lemmas: decimal digits and the count answer -/

lemma digitChar_mem_digits (d : ℕ) :
    digitChar d ∈ ['0', '1', '2', '3', '4', '5', '6', '7', '8', '9'] := by
  unfold digitChar
  split_ifs <;> simp

lemma natDigits_mem_digits (n : ℕ) :
    ∀ c ∈ natDigits n, c ∈ ['0', '1', '2', '3', '4', '5', '6', '7', '8', '9'] := by
  induction n using Nat.strong_induction_on with
  | _ n ih =>
    rw [natDigits]
    split_ifs with h
    · intro c hc
      rcases List.mem_singleton.1 hc with rfl
      exact digitChar_mem_digits n
    · intro c hc
      rcases List.mem_append.1 hc with hc | hc
      · exact ih (n / 10) (Nat.div_lt_self (by omega) (by omega)) c hc
      · rcases List.mem_singleton.1 hc with rfl
        exact digitChar_mem_digits (n % 10)

lemma toLower_digit {c : Char}
    (hc : c ∈ ['0', '1', '2', '3', '4', '5', '6', '7', '8', '9']) :
    Char.toLower c = c := by
  fin_cases hc <;> rfl

/-- The `count` answer of the metadata engine never contains the
`"not yet supported"` sentinel phrase: its lowercase form has no `'y'`. -/
lemma pyIn_sentinel_total_documents (n : ℕ) :
    pyIn "not yet supported" (pyLower ("Total documents: " ++ natStr n)) = false := by
  apply isSubOf_eq_false_of_not_mem (c := 'y')
  · decide
  · intro hy
    have hmk : (pyLower ("Total documents: " ++ natStr n)).toList
        = ("Total documents: ".toList ++ natDigits n).map Char.toLower := rfl
    rw [hmk, List.map_append] at hy
    rcases List.mem_append.1 hy with hy | hy
    · revert hy; decide
    · rcases List.mem_map.1 hy with ⟨c, hc, hlc⟩
      have := natDigits_mem_digits n c hc
      rw [toLower_digit this] at hlc
      subst hlc
      revert this; decide

lemma total_documents_ne_empty (n : ℕ) :
    ("Total documents: " ++ natStr n) ≠ "" := by
  intro h
  have h2 := congrArg String.length h
  rw [String.length_append] at h2
  have h17 : ("Total documents: " : String).length = 17 := rfl
  have h0 : ("" : String).length = 0 := rfl
  rw [h17, h0] at h2
  omega

/-! ## Helper lemmas: insertion sort and FAISS search -/

lemma mem_insertSorted {α : Type} (le : α → α → Bool) (x a : α) (l : List α) :
    a ∈ insertSorted le x l ↔ a = x ∨ a ∈ l := by
  induction l with
  | nil => simp [insertSorted]
  | cons y ys ih =>
    simp only [insertSorted]
    split_ifs
    · constructor
      · intro h
        rcases List.mem_cons.1 h with h | h
        · exact Or.inl h
        · exact Or.inr h
      · intro h
        rcases h with h | h
        · exact List.mem_cons.2 (Or.inl h)
        · exact List.mem_cons.2 (Or.inr h)
    · constructor
      · intro h
        rcases List.mem_cons.1 h with h | h
        · exact Or.inr (List.mem_cons.2 (Or.inl h))
        · rcases (ih.1 h) with h | h
          · exact Or.inl h
          · exact Or.inr (List.mem_cons.2 (Or.inr h))
      · intro h
        rcases h with h | h
        · exact List.mem_cons.2 (Or.inr (ih.2 (Or.inl h)))
        · rcases List.mem_cons.1 h with h | h
          · exact List.mem_cons.2 (Or.inl h)
          · exact List.mem_cons.2 (Or.inr (ih.2 (Or.inr h)))

lemma mem_insSortBy {α : Type} (le : α → α → Bool) (a : α) (l : List α) :
    a ∈ insSortBy le l ↔ a ∈ l := by
  induction l with
  | nil => simp [insSortBy]
  | cons x xs ih =>
    simp only [insSortBy]
    rw [mem_insertSorted, ih, List.mem_cons]

lemma length_insertSorted {α : Type} (le : α → α → Bool) (x : α) (l : List α) :
    (insertSorted le x l).length = l.length + 1 := by
  induction l with
  | nil => rfl
  | cons y ys ih =>
    simp only [insertSorted]
    split_ifs
    · simp
    · simp [ih]

lemma length_insSortBy {α : Type} (le : α → α → Bool) (l : List α) :
    (insSortBy le l).length = l.length := by
  induction l with
  | nil => rfl
  | cons x xs ih => simp [insSortBy, length_insertSorted, ih]

/-- On a non-empty index, `search(q, 1)` returns one valid ordinal. -/
lemma faissSearch_one_head (index : FaissIndex) (q : List ℚ)
    (h : index.ntotal ≠ 0) :
    ∃ d : ℚ, ∃ i : ℕ, i < index.ntotal ∧
      (faissSearch index q 1).head? = some (d, (i : ℤ)) := by
  have hlen : (insSortBy (fun a b => decide (a.1 ≤ b.1))
      (index.vecs.enum.map (fun p => (sqDist q p.2, (p.1 : ℤ))))).length
      = index.ntotal := by
    rw [length_insSortBy, List.length_map, List.enum_length]
    rfl
  cases hs : insSortBy (fun a b => decide (a.1 ≤ b.1))
      (index.vecs.enum.map (fun p => (sqDist q p.2, (p.1 : ℤ)))) with
  | nil =>
    rw [hs] at hlen
    exact absurd hlen.symm h
  | cons a rest =>
    have ha : a ∈ index.vecs.enum.map (fun p => (sqDist q p.2, (p.1 : ℤ))) := by
      rw [← mem_insSortBy (fun a b => decide (a.1 ≤ b.1)), hs]
      exact List.mem_cons_self a rest
    rcases List.mem_map.1 ha with ⟨p, hp, hpa⟩
    refine ⟨sqDist q p.2, p.1, ?_, ?_⟩
    · exact List.fst_lt_of_mem_enum hp
    · simp only [faissSearch]
      rw [hs, ← hpa]
      rfl

/-! ## Helper lemmas: router and pipeline control flow -/

lemma any_dictGetB_nil (l : List String) :
    (l.any (fun e => dictGetB [] e false)) = false := by
  induction l with
  | nil => rfl
  | cons a t ih => simp [List.any_cons, ih, dictGetB]

/-- With no `available_entities` map (the pipeline's invocation), every
lexically matched metadata pattern is demoted: the route is always
`"semantic"` and the operation always `None`. -/
lemma classify_question_none_semantic (q : String) :
    (classify_question q none).route = "semantic" ∧
      (classify_question q none).operation = none := by
  unfold classify_question
  simp only [Option.getD]
  split_ifs with h1 h2 h3 h4 h5 <;>
    simp_all [any_dictGetB_nil]

lemma generate_answer_of_classifier_error (env : RagEnv) (question : String)
    (relevant_chunks : Option (List MetaRec)) (notebook_id : Option String)
    (collection_id : Option String) (user_id : Option String) (e : PyError)
    (hc : classify_intent env question = .error e) :
    generate_answer env question relevant_chunks notebook_id collection_id
      user_id = .error e := by
  simp only [generate_answer]
  rw [if_neg (by rw [(classify_question_none_semantic question).1]; decide), hc]

lemma generate_answer_of_semantic_intent (env : RagEnv) (question : String)
    (relevant_chunks : Option (List MetaRec)) (notebook_id : Option String)
    (collection_id : Option String) (user_id : Option String) (intent : Intent)
    (hc : classify_intent env question = .ok intent)
    (hm : intent.intent_type ≠ some "metadata") :
    generate_answer env question relevant_chunks notebook_id collection_id
      user_id =
      .ok (semantic_rag env question relevant_chunks notebook_id collection_id
        user_id) := by
  simp only [generate_answer]
  rw [if_neg (by rw [(classify_question_none_semantic question).1]; decide), hc]
  simp only [if_neg hm]

lemma generate_answer_of_metadata_exit (env : RagEnv) (question : String)
    (relevant_chunks : Option (List MetaRec)) (notebook_id : Option String)
    (collection_id : Option String) (user_id : Option String) (intent : Intent)
    (hc : classify_intent env question = .ok intent)
    (hm : intent.intent_type = some "metadata")
    (hne : handle_metadata_intent env.meta_db intent collection_id user_id
      notebook_id ≠ "")
    (hni : pyIn "not yet supported" (pyLower (handle_metadata_intent env.meta_db
      intent collection_id user_id notebook_id)) = false) :
    generate_answer env question relevant_chunks notebook_id collection_id
      user_id =
      .ok ⟨handle_metadata_intent env.meta_db intent collection_id user_id
        notebook_id, false⟩ := by
  simp only [generate_answer]
  rw [if_neg (by rw [(classify_question_none_semantic question).1]; decide), hc]
  simp only [if_pos hm, hni, Bool.not_false, Bool.and_true, bne_iff_ne]
  rw [if_pos hne]

lemma generate_answer_of_metadata_fallthrough (env : RagEnv) (question : String)
    (relevant_chunks : Option (List MetaRec)) (notebook_id : Option String)
    (collection_id : Option String) (user_id : Option String) (intent : Intent)
    (hc : classify_intent env question = .ok intent)
    (hm : intent.intent_type = some "metadata")
    (hni : pyIn "not yet supported" (pyLower (handle_metadata_intent env.meta_db
      intent collection_id user_id notebook_id)) = true) :
    generate_answer env question relevant_chunks notebook_id collection_id
      user_id =
      .ok (semantic_rag env question relevant_chunks notebook_id collection_id
        user_id) := by
  simp only [generate_answer]
  rw [if_neg (by rw [(classify_question_none_semantic question).1]; decide), hc]
  simp only [if_pos hm, hni, Bool.not_true, Bool.and_false, if_neg]
  simp

/-! ## Helper lemmas: refusal filtering in collection mode -/

/-- A notebook whose extraction answer is empty or contains the phrase
`"not mentioned"` (case-insensitively) contributes nothing to the synthesis
input, whatever its index holds. -/
lemma process_notebook_of_refusal (env : RagEnv) (question : String)
    (q_emb : List ℚ) (nb_id : String)
    (h : ∀ c, env.ask c question = "" ∨
      pyIn "not mentioned" (pyLower (env.ask c question)) = true) :
    process_notebook env question q_emb nb_id = none := by
  unfold process_notebook
  cases hst : env.store nb_id with
  | none => rfl
  | some p =>
    rcases p with ⟨index, metadata⟩
    simp only []
    split_ifs with h0 h1 h2 h3 h4 <;> try rfl
    · simp only [Bool.and_eq_true, bne_iff_ne, Bool.not_eq_true'] at h3
      rcases h3 with ⟨hne, hnp⟩
      rcases h _ with ha | ha
      · exact absurd ha hne
      · rw [ha] at hnp
        exact Bool.noConfusion hnp
    · simp only [Bool.and_eq_true, bne_iff_ne, Bool.not_eq_true'] at h4
      rcases h4 with ⟨hne, hnp⟩
      rcases h _ with ha | ha
      · exact absurd ha hne
      · rw [ha] at hnp
        exact Bool.noConfusion hnp

/-- Collection mode resolves empty evidence (no notebooks, or every
extraction refused) to the canonical refusal without a synthesis call. -/
lemma semantic_collection_refusal (env : RagEnv) (question : String)
    (cid uid : String)
    (hempty : get_collection_notebooks env.db cid uid = [] ∨
      ∀ c, env.ask c question = "" ∨
        pyIn "not mentioned" (pyLower (env.ask c question)) = true) :
    semantic_collection env question cid uid = ⟨refusal_docs, false⟩ := by
  unfold semantic_collection
  rcases hempty with hempty | hempty
  · rw [if_pos hempty]
  · by_cases hids : get_collection_notebooks env.db cid uid = []
    · rw [if_pos hids]
    · rw [if_neg hids]
      have hnil : (get_collection_notebooks env.db cid uid).filterMap
          (process_notebook env question (env.embed question)) = [] := by
        rw [List.filterMap_eq_nil_iff]
        intro nb _
        exact process_notebook_of_refusal env question (env.embed question) nb
          hempty
      simp only [hnil]
      simp

/-- With truthy collection and user ids, the semantic stage dispatches to
collection mode. -/
lemma semantic_rag_collection (env : RagEnv) (question : String)
    (relevant_chunks : Option (List MetaRec)) (notebook_id : Option String)
    (cid uid : String) (hcid : cid ≠ "") (huid : uid ≠ "") :
    semantic_rag env question relevant_chunks notebook_id (some cid)
      (some uid) = semantic_collection env question cid uid := by
  unfold semantic_rag
  simp [truthyS, hcid, huid]

/-! ## Helper lemmas: metadata engine branches -/

lemma handle_metadata_intent_unsupported (meta_db : List MetadataRow)
    (intent : Intent) (cid uid nid : Option String)
    (hlist : ¬(intent.operation = some "list" ∧
      dictGetB intent.entities "case" false = true))
    (hcount : intent.operation ≠ some "count") :
    handle_metadata_intent meta_db intent cid uid nid = unsupported_sentinel := by
  unfold handle_metadata_intent
  rw [if_neg hlist, if_neg hcount]

lemma handle_metadata_intent_count (meta_db : List MetadataRow)
    (intent : Intent) (cid uid nid : Option String)
    (hcount : intent.operation = some "count") :
    handle_metadata_intent meta_db intent cid uid nid =
      "Total documents: " ++ natStr (metaRows meta_db cid uid).length := by
  unfold handle_metadata_intent
  rw [if_neg, if_pos hcount]
  intro hc
  rw [hcount] at hc
  exact absurd hc.1 (by decide)

lemma pyIn_sentinel_unsupported :
    pyIn "not yet supported" (pyLower unsupported_sentinel) = true := by decide

/-! ## Helper lemmas: enumeration -/

lemma enumFrom_map_snd {α : Type} (n : ℕ) (l : List α) :
    (List.enumFrom n l).map Prod.snd = l := by
  induction l generalizing n with
  | nil => rfl
  | cons a t ih => simp [List.enumFrom, ih]

lemma enum_map_snd' {α : Type} (l : List α) : l.enum.map Prod.snd = l :=
  enumFrom_map_snd 0 l

/-! ## Claims -/

/-- C1.  Ownership isolation: when every `notebooks` row carrying document
`d1` belongs to owner `A`, a distinct owner `B` never sees `d1` in any
collection listing (`get_collection_notebooks` scopes by
`collection_id AND user_id`), and `B`'s call to the single-document answer
entry point (`pdf_chat`) for `d1` raises `HTTPException(403, "Forbidden")`
instead of returning an answer. -/
theorem C1_ownership_isolation (env : RagEnv) (A B d1 c2 q : String)
    (hAB : A ≠ B) (hd1 : d1 ≠ "") (hq : q ≠ "")
    (howner : ∀ r ∈ env.db, r.notebook_id = d1 → r.user_id = A) :
    d1 ∉ get_collection_notebooks env.db c2 B ∧
      pdf_chat env (some d1) (some q) B = .error (.http 403 "Forbidden") := by
  constructor
  · intro hmem
    unfold get_collection_notebooks at hmem
    rcases List.mem_map.1 hmem with ⟨r, hr, hrid⟩
    rcases List.mem_filter.1 hr with ⟨hrdb, hcond⟩
    simp only [Bool.and_eq_true] at hcond
    have huB : r.user_id = B := eq_of_beq hcond.2
    have huA : r.user_id = A := howner r hrdb hrid
    exact hAB (huA.symm.trans huB)
  · have hany : env.db.any (fun r => r.notebook_id == d1 && r.user_id == B)
        = false := by
      cases han : env.db.any (fun r => r.notebook_id == d1 && r.user_id == B) with
      | false => rfl
      | true =>
        rcases List.any_eq_true.1 han with ⟨r, hr, hp⟩
        simp only [Bool.and_eq_true] at hp
        exact absurd ((howner r hr (eq_of_beq hp.1)).symm.trans
          (eq_of_beq hp.2)) hAB
    simp only [pdf_chat]
    rw [if_neg (by simp [truthyS, hd1, hq])]
    simp only [Option.getD_some]
    rw [if_pos hany]

/-- C1 witness: with the one-row table owned by `u1`, owner `u2` sees an
empty collection and receives 403 from `pdf_chat`. -/
theorem C1_ownership_isolation_witness :
    "n1" ∉ get_collection_notebooks wEnvCount.db "c1" "u2" ∧
      pdf_chat wEnvCount (some "n1") (some "hello") "u2" =
        .error (.http 403 "Forbidden") := by
  apply C1_ownership_isolation wEnvCount "u1" "u2" "n1" "c1" "hello"
    (by decide) (by decide) (by decide)
  intro r hr hid
  have : r = (⟨"n1", some "doc.pdf", "u1", some "c1"⟩ : NotebookRow) := by
    simpa [wEnvCount, wDb] using hr
  rw [this]

/-- C2.  Per-document guarantee: when every notebook of the collection has a
loadable, non-empty, well-formed index, `search_across_collection` returns a
contribution for each of them — no document is dropped by global
re-ranking (the fan-out searches each index independently with a
per-document cap). -/
theorem C2_per_document_contribution (db : List NotebookRow) (store : Store)
    (cid uid : String) (qe : List ℚ) (k : ℕ)
    (hwf : ∀ nb ∈ get_collection_notebooks db cid uid, ∃ index metadata,
      store nb = some (index, metadata) ∧ index.ntotal ≠ 0 ∧
        metadata.length = index.ntotal) :
    ∀ nb ∈ get_collection_notebooks db cid uid,
      ∃ r ∈ search_across_collection db store cid qe k uid,
        r.notebook_id = nb := by
  intro nb hnb
  rcases hwf nb hnb with ⟨index, metadata, hst, hnz, hlen⟩
  rcases faissSearch_one_head index qe hnz with ⟨d, i, hi, hhead⟩
  have hilen : i < metadata.length := by rw [hlen]; exact hi
  have hm : metadata.get? i = some (metadata.get ⟨i, hilen⟩) :=
    List.get?_eq_get hilen
  refine ⟨⟨(metadata.get ⟨i, hilen⟩).text, nb,
    (metadata.get ⟨i, hilen⟩).collection_id,
    (metadata.get ⟨i, hilen⟩).chunk_index, d, 1 / (1 + d)⟩, ?_, rfl⟩
  unfold search_across_collection
  apply List.mem_filterMap.2
  refine ⟨nb, hnb, ?_⟩
  rw [hst]
  simp only [if_neg hnz]
  rw [hhead]
  simp only [Int.toNat_natCast, hm]
  rw [if_neg (by omega)]

/-- C2 witness at the one-notebook fixture. -/
theorem C2_per_document_contribution_witness :
    ∃ r ∈ search_across_collection wDb wStore "c1" [1, 0] 10 "u1",
      r.notebook_id = "n1" := by
  apply C2_per_document_contribution wDb wStore "c1" "u1" [1, 0] 10 ?_ "n1"
    (by decide)
  intro nb hnb
  have : nb = "n1" := by simpa [get_collection_notebooks, wDb] using hnb
  rw [this]
  exact ⟨⟨[[0, 0]]⟩, [⟨"alpha", "n1", some "c1", 0⟩], rfl, by decide, rfl⟩

/-- C3.  Empty-evidence refusal and synthesis short-circuit: in collection
mode (truthy ids, classifier yields a non-metadata intent), if the
collection resolves to no notebooks, or every extraction answer is empty or
contains the refusal phrase, `generate_answer` returns exactly
`"Not mentioned in the documents."` with `synth_called = false` (the
synthesis model call is never made) and raises no exception (the result is
`Except.ok`). -/
theorem C3_empty_evidence_refusal (env : RagEnv) (question : String)
    (relevant_chunks : Option (List MetaRec)) (notebook_id : Option String)
    (cid uid : String) (intent : Intent)
    (hcid : cid ≠ "") (huid : uid ≠ "")
    (hc : classify_intent env question = .ok intent)
    (hm : intent.intent_type ≠ some "metadata")
    (hempty : get_collection_notebooks env.db cid uid = [] ∨
      ∀ c, env.ask c question = "" ∨
        pyIn "not mentioned" (pyLower (env.ask c question)) = true) :
    generate_answer env question relevant_chunks notebook_id (some cid)
      (some uid) = .ok ⟨refusal_docs, false⟩ := by
  rw [generate_answer_of_semantic_intent env question relevant_chunks
      notebook_id (some cid) (some uid) intent hc hm,
    semantic_rag_collection env question relevant_chunks notebook_id cid uid
      hcid huid,
    semantic_collection_refusal env question cid uid hempty]

/-- C3 witness: an empty collection yields the canonical refusal with no
synthesis call and no exception. -/
theorem C3_empty_evidence_refusal_witness :
    generate_answer wEnvEmpty "q" none none (some "c1") (some "u1") =
      .ok ⟨refusal_docs, false⟩ := by
  apply C3_empty_evidence_refusal wEnvEmpty "q" none none "c1" "u1" wIntentSem
    (by decide) (by decide) rfl (by decide)
  exact Or.inl rfl

/-- C4 counterexample: as invoked by the pipeline — with no
`available_entities` map — the deterministic router does NOT return
`route="metadata"` for `"How many documents do I have?"`: the availability
fallback demotes it to semantic. -/
theorem C4_router_determinism_counterexample :
    (classify_question "How many documents do I have?" none).route ≠
      "metadata" := by decide

/-- C4 amended.  Router determinism holds in this form: with an availability
map marking the `document` entity populated, the deterministic stage returns
`route="metadata"`, `operation="count"` for `"How many documents do I
have?"`; as the pipeline actually invokes it (no availability map) that
question is demoted to `route="semantic"` with `fallback_to_semantic=true`;
and `"What is the penalty clause?"` routes to semantic either way. -/
theorem C4_router_determinism_amended :
    (classify_question "How many documents do I have?"
      (some [("document", true)])).route = "metadata" ∧
    (classify_question "How many documents do I have?"
      (some [("document", true)])).operation = some "count" ∧
    (classify_question "How many documents do I have?" none).route =
      "semantic" ∧
    (classify_question "How many documents do I have?"
      none).fallback_to_semantic = true ∧
    (classify_question "What is the penalty clause?" none).route =
      "semantic" := by decide

/-- C5 counterexample: when the classifier model emits text that is not
valid JSON, `classify_intent`'s bare `json.loads` raises and the exception
propagates out of `generate_answer` — the query is aborted, not demoted to
the semantic route. -/
theorem C5_malformed_counterexample :
    generate_answer wEnvBadJson "What is the penalty clause?" none none
      (some "c") (some "u") =
      .error (.jsonDecode "Expecting value: line 1 column 1 (char 0)") :=
  generate_answer_of_classifier_error wEnvBadJson "What is the penalty clause?"
    none none (some "c") (some "u")
    (.jsonDecode "Expecting value: line 1 column 1 (char 0)") rfl

/-- C5 amended.  For every question (the deterministic router always routes
to semantic when invoked by the pipeline, so the classifier is always
consulted), a `json.loads` failure on the classifier output propagates as
that exception out of `generate_answer`; it is not converted into a
semantic-route intent. -/
theorem C5_malformed_output_propagates (env : RagEnv) (question : String)
    (relevant_chunks : Option (List MetaRec)) (notebook_id : Option String)
    (collection_id : Option String) (user_id : Option String) (e : PyError)
    (hc : classify_intent env question = .error e) :
    generate_answer env question relevant_chunks notebook_id collection_id
      user_id = .error e :=
  generate_answer_of_classifier_error env question relevant_chunks notebook_id
    collection_id user_id e hc

/-- C5 witness: the propagation theorem applied at the malformed-JSON
fixture. -/
theorem C5_malformed_output_propagates_witness :
    generate_answer wEnvBadJson "q" none none (some "c") (some "u") =
      .error (.jsonDecode "Expecting value: line 1 column 1 (char 0)") :=
  C5_malformed_output_propagates wEnvBadJson "q" none none (some "c")
    (some "u") (.jsonDecode "Expecting value: line 1 column 1 (char 0)") rfl

/-- C6 counterexample: the two call paths do not compute the same function
of distance.  At the fixture the raw distance is `1` on both paths; the
single-notebook path (`similarity_search`) scores it `1 - 1 = 0`, while the
collection path (`search_across_collection`) scores it `1/(1+1) = 1/2` —
so the single-notebook score is not `1/(1+d)`. -/
theorem C6_canonical_score_counterexample :
    (similarity_search wEnvScore "q" none (some "n1") none none 5).map
      (fun r => r.score) = [0] ∧
    (search_across_collection wDb wStore "c1" [1, 0] 10 "u1").map
      (fun r => (r.distance, r.score)) = [(1, 1 / 2)] ∧
    (0 : ℚ) ≠ 1 / (1 + 1) := by
  refine ⟨?_, ?_, by norm_num⟩
  · have h2 : faissSearch ⟨[[0, 0]]⟩ [1, 0] 5 =
        [(1, 0), (0, -1), (0, -1), (0, -1), (0, -1)] := by
      norm_num [faissSearch, insSortBy, insertSorted, sqDist, List.enum,
        List.enumFrom, List.replicate]
    norm_num +decide [similarity_search, truthyS, wEnvScore, wStore, wDb, h2,
      List.filterMap_cons, List.filterMap_nil]
  · have h2 : faissSearch ⟨[[0, 0]]⟩ [1, 0] 1 = [(1, 0)] := by
      norm_num [faissSearch, insSortBy, insertSorted, sqDist, List.enum,
        List.enumFrom]
    norm_num +decide [search_across_collection, get_collection_notebooks, wDb,
      wStore, h2, List.filterMap_cons, List.filterMap_nil, FaissIndex.ntotal]

/-- C6 amended.  The collection-wide path converts every raw distance with
`score = 1/(1+distance)`, while the single-notebook path converts with
`score = 1 - distance`: two different transforms, one per call path. -/
theorem C6_score_transforms_amended (db : List NotebookRow) (store : Store)
    (cid uid : String) (qe : List ℚ) (k : ℕ) (env : RagEnv) (q nid : String)
    (tk : ℕ) (index : FaissIndex) (metadata : List MetaRec)
    (hst : env.store nid = some (index, metadata)) (hnid : nid ≠ "") :
    (∀ r ∈ search_across_collection db store cid qe k uid,
      r.score = 1 / (1 + r.distance)) ∧
    (∀ r ∈ similarity_search env q none (some nid) none none tk,
      ∃ di ∈ faissSearch index (env.embed q) tk, r.score = 1 - di.1) := by
  constructor
  · intro r hr
    unfold search_across_collection at hr
    rcases List.mem_filterMap.1 hr with ⟨nb, _, hf⟩
    rcases hs : store nb with _ | ⟨idx2, md2⟩ <;> rw [hs] at hf
    · exact absurd hf (by simp)
    · dsimp only at hf
      by_cases h0 : idx2.ntotal = 0
      · rw [if_pos h0] at hf; cases hf
      · rw [if_neg h0] at hf
        cases hh : (faissSearch idx2 qe 1).head? <;> rw [hh] at hf
        · cases hf
        · rename_i di
          dsimp only at hf
          by_cases h1 : di.2 = -1 ∨ (md2.length : ℤ) ≤ di.2
          · rw [if_pos h1] at hf; cases hf
          · rw [if_neg h1] at hf
            cases hg : md2.get? di.2.toNat <;> rw [hg] at hf
            · cases hf
            · injection hf with hf2
              rw [← hf2]
  · intro r hr
    unfold similarity_search at hr
    rw [if_neg (by decide)] at hr
    rw [if_pos (by simp [truthyS, hnid])] at hr
    simp only [Option.getD_some] at hr
    rw [hst] at hr
    dsimp only at hr
    rcases List.mem_filterMap.1 hr with ⟨di, hdi, hf⟩
    refine ⟨di, hdi, ?_⟩
    by_cases h1 : di.2 = -1
    · rw [if_pos h1] at hf; cases hf
    · rw [if_neg h1] at hf
      by_cases h2 : di.2.toNat < metadata.length
      · rw [if_pos h2] at hf
        cases hg : metadata.get? di.2.toNat <;> rw [hg] at hf
        · cases hf
        · injection hf with hf2
          rw [← hf2]
      · rw [if_neg h2] at hf; cases hf

/-- C6 witness: the amended transform characterization applied at the
fixture (distance `1`: collection score `1/2`, single-notebook score `0`). -/
theorem C6_score_transforms_witness :
    (∀ r ∈ search_across_collection wDb wStore "c1" [1, 0] 10 "u1",
      r.score = 1 / (1 + r.distance)) ∧
    (∀ r ∈ similarity_search wEnvScore "q" none (some "n1") none none 5,
      ∃ di ∈ faissSearch ⟨[[0, 0]]⟩ (wEnvScore.embed "q") 5,
        r.score = 1 - di.1) :=
  C6_score_transforms_amended wDb wStore "c1" "u1" [1, 0] 10 wEnvScore "q"
    "n1" 5 ⟨[[0, 0]]⟩ [⟨"alpha", "n1", some "c1", 0⟩] rfl (by decide)

/-- C7.  Build/load round-trip: for every non-empty chunk list,
`save_vectors` then `load_vectors` yields chunk metadata whose texts have the
same count and order as the supplied chunks. -/
theorem C7_round_trip (store : Store) (nid : String) (chunks : List ChunkRec)
    (cid : Option String) (h : chunks ≠ []) :
    ∃ store2, save_vectors store nid chunks cid = some store2 ∧
      (load_vectors store2 nid).map (fun p => p.2.map (fun m => m.text)) =
        some (chunks.map (fun c => c.text)) := by
  cases chunks with
  | nil => exact absurd rfl h
  | cons c cs =>
    refine ⟨_, rfl, ?_⟩
    simp only [load_vectors]
    simp only [if_true]
    simp only [Option.map_some']
    congr 1
    rw [List.map_map]
    have hcomp : ((fun m : MetaRec => m.text) ∘
        (fun p : ℕ × ChunkRec =>
          (⟨p.2.text, nid, cid, p.2.chunk_index.getD p.1⟩ : MetaRec))) =
        ((fun v : ChunkRec => v.text) ∘ Prod.snd) := rfl
    rw [hcomp, ← List.map_map, enum_map_snd']

/-- C7 witness at a concrete two-chunk list. -/
theorem C7_round_trip_witness :
    ∃ store2, save_vectors wStoreEmpty "n9" wChunks (some "c9") = some store2 ∧
      (load_vectors store2 "n9").map (fun p => p.2.map (fun m => m.text)) =
        some (wChunks.map (fun c => c.text)) :=
  C7_round_trip wStoreEmpty "n9" wChunks (some "c9") (by decide)

/-- C8.  Metadata unsupported-sentinel fallback, for any metadata-typed
intent the classifier returns: (1) an operation/entities combination the
engine does not support yields the `"not yet supported"` sentinel string —
not an exception — and the pipeline then proceeds to the semantic stage
instead of returning the sentinel; (2) a supported `count` operation is
answered directly (`"Total documents: <n>"`, semantic stage skipped); (3) a
supported `list`/`case` operation whose formatted answer is non-empty and
sentinel-free is likewise returned directly. -/
theorem C8_metadata_sentinel_fallback (env : RagEnv) (question : String)
    (relevant_chunks : Option (List MetaRec)) (notebook_id : Option String)
    (collection_id user_id : Option String) (intent : Intent)
    (hc : classify_intent env question = .ok intent)
    (hm : intent.intent_type = some "metadata") :
    ((¬(intent.operation = some "list" ∧
        dictGetB intent.entities "case" false = true)) →
      intent.operation ≠ some "count" →
      handle_metadata_intent env.meta_db intent collection_id user_id
          notebook_id = unsupported_sentinel ∧
        generate_answer env question relevant_chunks notebook_id collection_id
          user_id = .ok (semantic_rag env question relevant_chunks notebook_id
            collection_id user_id)) ∧
    (intent.operation = some "count" →
      generate_answer env question relevant_chunks notebook_id collection_id
        user_id = .ok ⟨"Total documents: " ++
          natStr (metaRows env.meta_db collection_id user_id).length,
          false⟩) ∧
    (intent.operation = some "list" →
      dictGetB intent.entities "case" false = true →
      handle_metadata_intent env.meta_db intent collection_id user_id
        notebook_id ≠ "" →
      pyIn "not yet supported" (pyLower (handle_metadata_intent env.meta_db
        intent collection_id user_id notebook_id)) = false →
      generate_answer env question relevant_chunks notebook_id collection_id
        user_id = .ok ⟨handle_metadata_intent env.meta_db intent collection_id
          user_id notebook_id, false⟩) := by
  refine ⟨?_, ?_, ?_⟩
  · intro hlist hcount
    have hh := handle_metadata_intent_unsupported env.meta_db intent
      collection_id user_id notebook_id hlist hcount
    refine ⟨hh, ?_⟩
    apply generate_answer_of_metadata_fallthrough env question relevant_chunks
      notebook_id collection_id user_id intent hc hm
    rw [hh]
    exact pyIn_sentinel_unsupported
  · intro hcount
    have hh := handle_metadata_intent_count env.meta_db intent collection_id
      user_id notebook_id hcount
    have hmain := generate_answer_of_metadata_exit env question relevant_chunks
      notebook_id collection_id user_id intent hc hm
      (by rw [hh]; exact total_documents_ne_empty _)
      (by rw [hh]; exact pyIn_sentinel_total_documents _)
    rw [hmain, hh]
  · intro _ _ hne hni
    exact generate_answer_of_metadata_exit env question relevant_chunks
      notebook_id collection_id user_id intent hc hm hne hni

/-- C8 witness: the three branches at concrete fixtures — an unsupported
`summarize` intent falls through to the semantic stage, a `count` intent is
answered directly, and a `list`/`case` intent is answered directly. -/
theorem C8_metadata_sentinel_fallback_witness :
    (handle_metadata_intent wEnvUnsupported.meta_db wIntentSumm (some "c1")
        (some "u1") none = unsupported_sentinel ∧
      generate_answer wEnvUnsupported "q" none none (some "c1") (some "u1") =
        .ok (semantic_rag wEnvUnsupported "q" none none (some "c1")
          (some "u1"))) ∧
    generate_answer wEnvCount "q" none none (some "c1") (some "u1") =
      .ok ⟨"Total documents: " ++
        natStr (metaRows wEnvCount.meta_db (some "c1") (some "u1")).length,
        false⟩ ∧
    generate_answer wEnvList "q" none none (some "c1") (some "u1") =
      .ok ⟨handle_metadata_intent wEnvList.meta_db wIntentList (some "c1")
        (some "u1") none, false⟩ := by
  refine ⟨?_, ?_, ?_⟩
  · exact (C8_metadata_sentinel_fallback wEnvUnsupported "q" none none
      (some "c1") (some "u1") wIntentSumm rfl rfl).1 (by decide) (by decide)
  · exact (C8_metadata_sentinel_fallback wEnvCount "q" none none
      (some "c1") (some "u1") wIntentCount rfl rfl).2.1 rfl
  · exact (C8_metadata_sentinel_fallback wEnvList "q" none none
      (some "c1") (some "u1") wIntentList rfl rfl).2.2 rfl rfl (by decide)
      (by decide)

/-- C9.  Implicit consequence of the pipeline's invocation: `generate_answer`
calls `classify_question` without an `available_entities` map, and with the
defaulted empty map the fallback check demotes every matched metadata
pattern, so the deterministic route is always `"semantic"` (operation
`None`) — through the pipeline the deterministic metadata route is never
taken. -/
theorem C9_pipeline_router_always_semantic (q : String) :
    (classify_question q none).route = "semantic" ∧
      (classify_question q none).operation = none :=
  classify_question_none_semantic q

/-- C10.  Refusal detection in collection mode is by case-insensitive
substring, not equality with the canonical sentinel: a notebook whose
extraction answer is empty or contains `"not mentioned"` anywhere in its
lowercased text is excluded from the synthesis input (`process_notebook`
returns `none`), even when the answer carries additional content. -/
theorem C10_substring_refusal_excluded (env : RagEnv) (question : String)
    (q_emb : List ℚ) (nb_id : String)
    (h : ∀ c, env.ask c question = "" ∨
      pyIn "not mentioned" (pyLower (env.ask c question)) = true) :
    process_notebook env question q_emb nb_id = none :=
  process_notebook_of_refusal env question q_emb nb_id h

/-- C10 witness: an answer with grounded content plus a case-varied
`"Not MENTIONED"` phrase — in particular not equal to the canonical
sentinel — is still excluded. -/
theorem C10_substring_refusal_excluded_witness :
    process_notebook wEnvMixed "q" [1, 0] "n1" = none ∧
      wEnvMixed.ask "ctx" "q" ≠ refusal_doc ∧
      pyIn "not mentioned" (pyLower (wEnvMixed.ask "ctx" "q")) = true := by
  refine ⟨?_, by decide, by decide⟩
  apply C10_substring_refusal_excluded wEnvMixed "q" [1, 0] "n1"
  intro c
  right
  show pyIn "not mentioned" (pyLower
    "The penalty is 5% per month. Whether interest also accrues is Not MENTIONED in the document.") = true
  decide

end RagSpec












